import Mathlib

/-!
Shallow embedding of `src/dhis2/start_dhis2.py` (repository `dhis2-tests`).

The script orchestrates a cached DHIS2 test environment: it derives a cache
key from the database-dump URL, restores a postgres volume from a cache
archive when one exists, and otherwise downloads the dump, starts the db,
polls for import completion, writes the cache, starts the full compose
stack, and polls the DHIS2 health endpoint.

The embedding models each function as a pure Lean function from an explicit
environment (outcomes of external commands, log contents, filesystem state)
to the trace of external effects it performs together with its outcome
(normal return or raised error).  Machine words are `Nat` with explicit
`% 2 ^ 32` masking.
-/

namespace Dhis2

/-! ### MD5, as used by `hashlib.md5(dbdump_url.encode()).hexdigest()`

`hashlib.md5` is the Python standard library's MD5; it is embedded here in
full (RFC 1321) so that the cache-key derivation is the real function of the
source, not a stub. -/

def add32 (a b : Nat) : Nat := (a + b) % 4294967296

def not32 (x : Nat) : Nat := x ^^^ 4294967295

def rotl32 (x n : Nat) : Nat := ((x <<< n) ||| (x >>> (32 - n))) % 4294967296

/-- The 64 per-round additive constants of MD5 (`floor(abs(sin(i+1)) * 2^32)`). -/
def mdK : List Nat :=
  [3614090360, 3905402710, 606105819, 3250441966, 4118548399, 1200080426, 2821735955, 4249261313,
   1770035416, 2336552879, 4294925233, 2304563134, 1804603682, 4254626195, 2792965006, 1236535329,
   4129170786, 3225465664, 643717713, 3921069994, 3593408605, 38016083, 3634488961, 3889429448,
   568446438, 3275163606, 4107603335, 1163531501, 2850285829, 4243563512, 1735328473, 2368359562,
   4294588738, 2272392833, 1839030562, 4259657740, 2763975236, 1272893353, 4139469664, 3200236656,
   681279174, 3936430074, 3572445317, 76029189, 3654602809, 3873151461, 530742520, 3299628645,
   4096336452, 1126891415, 2878612391, 4237533241, 1700485571, 2399980690, 4293915773, 2240044497,
   1873313359, 4264355552, 2734768916, 1309151649, 4149444226, 3174756917, 718787259, 3951481745]

/-- The 64 per-round left-rotation amounts of MD5. -/
def mdS : List Nat :=
  [7, 12, 17, 22, 7, 12, 17, 22, 7, 12, 17, 22, 7, 12, 17, 22,
   5, 9, 14, 20, 5, 9, 14, 20, 5, 9, 14, 20, 5, 9, 14, 20,
   4, 11, 16, 23, 4, 11, 16, 23, 4, 11, 16, 23, 4, 11, 16, 23,
   6, 10, 15, 21, 6, 10, 15, 21, 6, 10, 15, 21, 6, 10, 15, 21]

/-- UTF-8 encoding of a single code point (Python `str.encode()` is UTF-8). -/
def utf8Encode (c : Nat) : List Nat :=
  if c < 128 then [c]
  else if c < 2048 then [192 ||| (c >>> 6), 128 ||| (c &&& 63)]
  else if c < 65536 then
    [224 ||| (c >>> 12), 128 ||| ((c >>> 6) &&& 63), 128 ||| (c &&& 63)]
  else
    [240 ||| (c >>> 18), 128 ||| ((c >>> 12) &&& 63),
     128 ||| ((c >>> 6) &&& 63), 128 ||| (c &&& 63)]

/-- The UTF-8 bytes of a string, each byte a `Nat < 256`. -/
def strBytes (s : String) : List Nat :=
  (s.data.map (fun c => utf8Encode c.toNat)).flatten

/-- `n` little-endian bytes of `x`. -/
def toLE : Nat → Nat → List Nat
  | 0, _ => []
  | k + 1, x => (x % 256) :: toLE k (x / 256)

/-- MD5 padding: append `0x80`, zero bytes to 56 mod 64, then the 64-bit
little-endian bit length. -/
def md5Pad (msg : List Nat) : List Nat :=
  let padLen := (64 + 56 - (msg.length + 1) % 64) % 64
  msg ++ [128] ++ List.replicate padLen 0 ++ toLE 8 ((msg.length * 8) % 2 ^ 64)

/-- Split a byte list into 64-byte chunks (each step consumes at least one
byte, so the list's length bounds the recursion). -/
def toChunksAux : Nat → List Nat → List (List Nat)
  | 0, _ => []
  | _, [] => []
  | n + 1, b :: bs => ((b :: bs).take 64) :: toChunksAux n (bs.drop 63)

/-- Split a byte list into 64-byte chunks. -/
def toChunks (l : List Nat) : List (List Nat) := toChunksAux l.length l

/-- Little-endian 32-bit word `j` of a 64-byte chunk. -/
def wordAt (chunk : List Nat) (j : Nat) : Nat :=
  chunk.getD (4 * j) 0 + 256 * chunk.getD (4 * j + 1) 0 +
    65536 * chunk.getD (4 * j + 2) 0 + 16777216 * chunk.getD (4 * j + 3) 0

/-- One MD5 round `i` (0-based) on state `(A, B, C, D)` with message words `M`. -/
def md5Step (M : Nat → Nat) (st : Nat × Nat × Nat × Nat) (i : Nat) :
    Nat × Nat × Nat × Nat :=
  let A := st.1
  let B := st.2.1
  let C := st.2.2.1
  let D := st.2.2.2
  let f :=
    if i < 16 then (B &&& C) ||| (not32 B &&& D)
    else if i < 32 then (D &&& B) ||| (not32 D &&& C)
    else if i < 48 then B ^^^ C ^^^ D
    else C ^^^ (B ||| not32 D)
  let g :=
    if i < 16 then i
    else if i < 32 then (5 * i + 1) % 16
    else if i < 48 then (3 * i + 5) % 16
    else (7 * i) % 16
  let tmp := add32 (add32 (add32 f A) (mdK.getD i 0)) (M g)
  (D, add32 B (rotl32 tmp (mdS.getD i 0)), B, C)

/-- Process one 64-byte chunk, updating the running state. -/
def md5Chunk (h : Nat × Nat × Nat × Nat) (chunk : List Nat) :
    Nat × Nat × Nat × Nat :=
  let r := (List.range 64).foldl (md5Step (wordAt chunk)) h
  (add32 h.1 r.1, add32 h.2.1 r.2.1, add32 h.2.2.1 r.2.2.1, add32 h.2.2.2 r.2.2.2)

/-- MD5 initial state. -/
def md5Init : Nat × Nat × Nat × Nat := (1732584193, 4023233417, 2562383102, 271733878)

/-- The 16-byte MD5 digest of a byte list. -/
def md5Digest (msg : List Nat) : List Nat :=
  let r := (toChunks (md5Pad msg)).foldl md5Chunk md5Init
  toLE 4 r.1 ++ toLE 4 r.2.1 ++ toLE 4 r.2.2.1 ++ toLE 4 r.2.2.2

/-- Lowercase hex character of a nibble. -/
def hexChar (n : Nat) : Char :=
  if n < 10 then Char.ofNat (48 + n) else Char.ofNat (87 + n)

/-- Two lowercase hex characters of a byte, high nibble first. -/
def byteHex (b : Nat) : List Char := [hexChar (b / 16 % 16), hexChar (b % 16)]

/-- The characters of `hashlib.md5(s.encode()).hexdigest()`. -/
def md5HexChars (s : String) : List Char :=
  ((md5Digest (strBytes s)).map byteHex).flatten

/-- `hashlib.md5(s.encode()).hexdigest()` as a string. -/
def md5Hexdigest (s : String) : String := ⟨md5HexChars s⟩

/-- `dbdump_hash = hashlib.md5(dbdump_url.encode()).hexdigest()[:8]`
(`start_services`, and the module-level `DBDUMP_HASH`). -/
def dbdump_hash (url : String) : String := ⟨(md5HexChars url).take 8⟩

/-! ### Effects, outcomes and the commands the script runs

Every call to `run(cmd)` (a `subprocess.run` with `check=True`), every
`Path.mkdir(parents=True, exist_ok=True)`, every `sleep(3)` and every HTTP
GET of the script is recorded as one event.  A function's model returns the
list of events it performs, in order, together with its outcome: `ok` for a
normal return, `processError cmd` for a `subprocess.CalledProcessError`
raised by `run(cmd)`, `runtimeError msg` for an explicit
`raise RuntimeError(msg)`. -/

/-- An observable external effect of the script. -/
inductive Ev where
  | cmd (args : List String)
  | mkdirParents (dir : String)
  | sleep (secs : Nat)
  | httpGet (url : String)
  deriving Repr, DecidableEq

/-- How a modelled Python function terminates. -/
inductive Outcome where
  | ok
  | processError (cmd : List String)
  | runtimeError (msg : String)
  deriving Repr, DecidableEq

/-- A trace of effects together with the outcome. -/
abbrev Run := List Ev × Outcome

/-- Sequence two runs: the second one happens only if the first returned
normally; an error propagates (no `try`/`except` anywhere in the script
except around the two poll checks modelled below). -/
def seqRun (r1 r2 : Run) : Run :=
  match r1 with
  | (t, Outcome.ok) => (t ++ r2.1, r2.2)
  | (t, e) => (t, e)

def composeDownCmd : List String := ["docker", "compose", "down", "-v"]

def volumeCreateCmd (volume : String) : List String :=
  ["docker", "volume", "create", volume]

def composeUpDbCmd : List String := ["docker", "compose", "up", "-d", "db"]

def pgIsReadyCmd : List String :=
  ["docker", "compose", "exec", "-T", "db", "pg_isready", "-U", "dhis", "-d", "dhis"]

def composePsQDbCmd : List String := ["docker", "compose", "ps", "-q", "db"]

def dockerLogsCmd (containerId : String) : List String :=
  ["docker", "logs", containerId, "--tail=100"]

def composeStopDbCmd : List String := ["docker", "compose", "stop", "db"]

def composeUpAllCmd : List String := ["docker", "compose", "up", "-d"]

def wgetCmd (dest url : String) : List String := ["wget", "-O", dest, url]

/-- The `docker run … busybox tar xzf …` command of `restore_from_cache`.
The host side of the `/cache` mount is `cache_fp.parent` (the code takes its
absolute form; paths are modelled as the strings the script builds). -/
def restoreTarCmd (cacheDir cacheName volume : String) : List String :=
  ["docker", "run", "--rm", "-v", volume ++ ":/data", "-v", cacheDir ++ ":/cache",
   "busybox", "tar", "xzf", "/cache/" ++ cacheName, "-C", "/data"]

/-- The `docker run … busybox tar czf …` command of `cache_db`. -/
def cacheTarCmd (cacheDir cacheName volume : String) : List String :=
  ["docker", "run", "--rm", "-v", volume ++ ":/data", "-v", cacheDir ++ ":/cache",
   "busybox", "tar", "czf", "/cache/" ++ cacheName, "-C", "/data", "."]

/-- Split a character list on a separator character. -/
def splitOnChar (c : Char) : List Char → List (List Char)
  | [] => [[]]
  | a :: t =>
    let r := splitOnChar c t
    if a == c then [] :: r
    else (a :: r.headD []) :: r.tail

/-- The `/`-separated components of a path string. -/
def pathComponents (p : String) : List (List Char) := splitOnChar '/' p.data

/-- `Path.name`: the final `/`-separated component of a path string. -/
def pathName (p : String) : String := ⟨(pathComponents p).getLastD []⟩

/-- Rejoin path components with `/`. -/
def joinSlash : List (List Char) → List Char
  | [] => []
  | [x] => x
  | x :: y :: t => x ++ '/' :: joinSlash (y :: t)

/-- `Path.parent`: the path with its final component removed.  (Python's
`Path` would also normalise a leading `./` away; the script only ever feeds
the resulting parent to `absolute()` for a mount source, so the model keeps
the path as the script's string.) -/
def pathParent (p : String) : String := ⟨joinSlash (pathComponents p).dropLast⟩

/-! ### The local filesystem

`download_dump` is the only function of the script that touches the local
filesystem itself (an `mkdir` and the file produced by `wget`); presence of
the dump file decides its short-circuit, so the model threads an explicit
filesystem state through it. -/

/-- Local filesystem state: which files and directories exist. -/
structure FS where
  files : List String
  dirs : List String
  deriving Repr, DecidableEq

/-- `Path.mkdir(parents=True, exist_ok=True)`: afterwards the directory
exists; creating an existing directory is a no-op. -/
def fsMkdir (fs : FS) (dir : String) : FS :=
  { fs with dirs := if fs.dirs.contains dir then fs.dirs else dir :: fs.dirs }

/-! ### The functions of `start_dhis2.py` -/

/-- `restore_from_cache(cache_fp, volume)`: create the volume, then extract
the archive into it with an ephemeral busybox container.  `restoreTarOk`
is whether that `tar xzf` container exits 0; on failure `run` raises
`CalledProcessError`, which `restore_from_cache` does not catch.  The
`docker volume create` is modelled as succeeding. -/
def restore_from_cache (restoreTarOk : Bool) (cache_fp volume : String) : Run :=
  let t := [Ev.cmd (volumeCreateCmd volume),
            Ev.cmd (restoreTarCmd (pathParent cache_fp) (pathName cache_fp) volume)]
  if restoreTarOk then (t, Outcome.ok)
  else (t, Outcome.processError (restoreTarCmd (pathParent cache_fp) (pathName cache_fp) volume))

/-- `download_dump(dump_dir, dump_url)`: always `mkdir` the directory, then
return the dump path at once when the file already exists, otherwise `wget`
it there.  `wgetOk` is whether the `wget` exits 0; on success the file
exists afterwards.  Returns the new filesystem, the returned path, and the
run. -/
def download_dump (fs : FS) (wgetOk : Bool) (dump_dir dump_url : String) :
    FS × String × Run :=
  let fs1 := fsMkdir fs dump_dir
  let dump_fp := dump_dir ++ "/dump.sql.gz"
  if fs1.files.contains dump_fp then
    (fs1, dump_fp, ([Ev.mkdirParents dump_dir], Outcome.ok))
  else if wgetOk then
    ({ fs1 with files := dump_fp :: fs1.files }, dump_fp,
     ([Ev.mkdirParents dump_dir, Ev.cmd (wgetCmd dump_fp dump_url)], Outcome.ok))
  else
    (fs1, dump_fp,
     ([Ev.mkdirParents dump_dir, Ev.cmd (wgetCmd dump_fp dump_url)],
      Outcome.processError (wgetCmd dump_fp dump_url)))

/-- Attempt bound shared by the three polling loops of the script
(`for _ in range(360)`). -/
def pollMaxAttempts : Nat := 360

/-- Sleep interval in seconds shared by the three polling loops (`sleep(3)`). -/
def pollInterval : Nat := 3

/-- The `pg_isready` loop of `start_db`: up to `fuel` attempts starting at
attempt index `i`; `pgReady j` is whether attempt `j`'s `pg_isready` exits 0.
A failing attempt raises `CalledProcessError`, which is caught and followed
by `sleep(3)`; a succeeding attempt breaks out.  Exhausting the range simply
ends the loop (no error is raised). -/
def dbPollLoop (pgReady : Nat → Bool) : Nat → Nat → List Ev
  | 0, _ => []
  | fuel + 1, i =>
    Ev.cmd pgIsReadyCmd ::
      (if pgReady i then [] else Ev.sleep pollInterval :: dbPollLoop pgReady fuel (i + 1))

/-- `start_db(volume)`: `docker compose down -v`, create the volume, start
only the `db` service, then poll `pg_isready`.  The three unconditional
commands are modelled as succeeding.  Note that `start_db` returns normally
whether or not any `pg_isready` attempt ever succeeded. -/
def start_db (pgReady : Nat → Bool) (volume : String) : Run :=
  ([Ev.cmd composeDownCmd, Ev.cmd (volumeCreateCmd volume), Ev.cmd composeUpDbCmd]
     ++ dbPollLoop pgReady pollMaxAttempts 0,
   Outcome.ok)

/-- Does `pat` occur as a contiguous substring at the start of `l`? -/
def startsWithChars : List Char → List Char → Bool
  | [], _ => true
  | _ :: _, [] => false
  | a :: p, b :: l => a == b && startsWithChars p l

/-- Python's `pat in s` on strings: contiguous-substring occurrence. -/
def containsSub (l pat : List Char) : Bool :=
  startsWithChars pat l ||
    match l with
    | [] => false
    | _ :: t => containsSub t pat

/-- Python `pat in s` for `String`s. -/
def occursIn (pat s : String) : Bool := containsSub s.data pat.data

/-- Python `str.strip()`: remove leading and trailing whitespace. -/
def pyStrip (s : String) : String :=
  ⟨((s.data.dropWhile Char.isWhitespace).reverse.dropWhile Char.isWhitespace).reverse⟩

/-- The marker line `wait_for_import` scans for. -/
def importMarker : String := "database system is ready to accept connections"

/-- The per-attempt check of `wait_for_import`: the marker must occur in the
`stderr` field of the `docker logs … --tail=100` result (`logs` gives the
`(stdout, stderr)` pair each attempt's tail returns). -/
def importCheck (out : String × String) : Bool := occursIn importMarker out.2

/-- The log-scanning loop of `wait_for_import`: each attempt runs
`docker logs <cid> --tail=100` (modelled as succeeding, producing `logs i`),
returns on the marker, else sleeps 3 s; exhausting the range raises
`RuntimeError("Database import did not complete in time")`. -/
def importPollLoop (logs : Nat → String × String) (cid : String) : Nat → Nat → Run
  | 0, _ => ([], Outcome.runtimeError "Database import did not complete in time")
  | fuel + 1, i =>
    if importCheck (logs i) then ([Ev.cmd (dockerLogsCmd cid)], Outcome.ok)
    else
      let r := importPollLoop logs cid fuel (i + 1)
      (Ev.cmd (dockerLogsCmd cid) :: Ev.sleep pollInterval :: r.1, r.2)

/-- `wait_for_import()`: read the db container id from
`docker compose ps -q db` (its stdout is `psStdout`, the command itself
modelled as succeeding), strip it, raise
`RuntimeError("DB container not found")` when the stripped id is empty, else
run the log-scanning loop. -/
def wait_for_import (psStdout : String) (logs : Nat → String × String) : Run :=
  let container_id := pyStrip psStdout
  if container_id = "" then
    ([Ev.cmd composePsQDbCmd], Outcome.runtimeError "DB container not found")
  else
    let r := importPollLoop logs container_id pollMaxAttempts 0
    (Ev.cmd composePsQDbCmd :: r.1, r.2)

/-- `cache_db(cache_file, volume)`: stop the `db` service, then archive the
volume into `/cache/<name>` with an ephemeral busybox container whose
`/cache` mount is `cache_file.parent`.  Both commands are modelled as
succeeding.  `cache_db` performs no local-filesystem operation of its own —
in particular it never creates the cache directory. -/
def cache_db (cache_file volume : String) : Run :=
  ([Ev.cmd composeStopDbCmd,
    Ev.cmd (cacheTarCmd (pathParent cache_file) (pathName cache_file) volume)],
   Outcome.ok)

/-- The health-endpoint URL polled by `wait_for_dhis2`. -/
def dhis2InfoUrl : String := "http://localhost:8080/api/system/info"

/-- The GET loop of `wait_for_dhis2`: `httpOk i` is whether attempt `i`'s
`GET /api/system/info` completes without `httpx.HTTPError` (transport errors
and non-2xx via `raise_for_status` both count as failures); a failure sleeps
3 s and retries; exhaustion raises
`RuntimeError("DHIS2 did not start in time")`. -/
def dhis2PollLoop (httpOk : Nat → Bool) : Nat → Nat → Run
  | 0, _ => ([], Outcome.runtimeError "DHIS2 did not start in time")
  | fuel + 1, i =>
    if httpOk i then ([Ev.httpGet dhis2InfoUrl], Outcome.ok)
    else
      let r := dhis2PollLoop httpOk fuel (i + 1)
      (Ev.httpGet dhis2InfoUrl :: Ev.sleep pollInterval :: r.1, r.2)

/-- `wait_for_dhis2()`. -/
def wait_for_dhis2 (httpOk : Nat → Bool) : Run :=
  dhis2PollLoop httpOk pollMaxAttempts 0

/-- The environment a `start_services` run observes: the cache-archive
existence check, the local filesystem seen by `download_dump`, and the
outcomes of the external processes it and its callees invoke. -/
structure Env where
  cacheExists : Bool
  fs : FS
  wgetOk : Bool
  restoreTarOk : Bool
  pgReady : Nat → Bool
  psStdout : String
  logs : Nat → String × String
  httpOk : Nat → Bool

/-- `f"dhis2_{dbdump_hash}_postgres-data"`. -/
def postgres_volume_name (hash : String) : String :=
  "dhis2_" ++ hash ++ "_postgres-data"

/-- `Path(f"./db-dump_{dbdump_hash}")`. -/
def dbdump_dir_path (hash : String) : String := "./db-dump_" ++ hash

/-- `Path(f"./cache/postgres-{dbdump_hash}.tar.gz")`. -/
def cache_fp_path (hash : String) : String :=
  "./cache/postgres-" ++ hash ++ ".tar.gz"

/-- `start_services(dbdump_url)`: derive the hash, and branch on the
existence of the cache archive.  Cache hit: restore from cache and
`docker compose up -d`.  Cache miss: download the dump, start the db, wait
for the import, cache the volume.  Either way, then `docker compose up -d`
(again, on the hit path) and wait for DHIS2. -/
def start_services (env : Env) (dbdump_url : String) : Run :=
  let hash := dbdump_hash dbdump_url
  let volume := postgres_volume_name hash
  let dump_dir := dbdump_dir_path hash
  let cache_fp := cache_fp_path hash
  let branch : Run :=
    if env.cacheExists then
      seqRun (restore_from_cache env.restoreTarOk cache_fp volume)
        ([Ev.cmd composeUpAllCmd], Outcome.ok)
    else
      seqRun (download_dump env.fs env.wgetOk dump_dir dbdump_url).2.2
        (seqRun (start_db env.pgReady volume)
          (seqRun (wait_for_import env.psStdout env.logs)
            (cache_db cache_fp volume)))
  seqRun branch
    (seqRun ([Ev.cmd composeUpAllCmd], Outcome.ok) (wait_for_dhis2 env.httpOk))

/-! ### Event classifiers -/

/-- Events that only `download_dump` produces: the `mkdir` of the dump
directory and the `wget` invocation. -/
def isDownloadEv : Ev → Bool
  | Ev.mkdirParents _ => true
  | Ev.cmd args => args.headD "" == "wget"
  | _ => false

/-- Events that only `wait_for_import` produces: the container-id lookup and
the `docker logs` tail fetches. -/
def isImportEv : Ev → Bool
  | Ev.cmd args => args == composePsQDbCmd || args.take 2 == ["docker", "logs"]
  | _ => false

/-- A `wget` invocation. -/
def isWgetEv : Ev → Bool
  | Ev.cmd args => args.headD "" == "wget"
  | _ => false

/-- A local-filesystem directory creation. -/
def isMkdirEv : Ev → Bool
  | Ev.mkdirParents _ => true
  | _ => false

/-- A `docker logs` tail fetch. -/
def isLogsEv : Ev → Bool
  | Ev.cmd args => args.take 2 == ["docker", "logs"]
  | _ => false

/-- A `sleep`. -/
def isSleepEv : Ev → Bool
  | Ev.sleep _ => true
  | _ => false

/-- A lowercase hexadecimal character: a digit or `a`–`f`. -/
def isLowerHexChar (c : Char) : Bool :=
  (48 ≤ c.toNat && c.toNat ≤ 57) || (97 ≤ c.toNat && c.toNat ≤ 102)

/-! ### Basic lemmas -/

theorem seqRun_ok (r1 r2 : Run) (h : r1.2 = Outcome.ok) :
    seqRun r1 r2 = (r1.1 ++ r2.1, r2.2) := by
  obtain ⟨t, o⟩ := r1
  cases o <;> simp_all [seqRun]

theorem seqRun_err (r1 r2 : Run) (h : r1.2 ≠ Outcome.ok) :
    seqRun r1 r2 = r1 := by
  obtain ⟨t, o⟩ := r1
  cases o <;> simp_all [seqRun]

theorem countP_flatten_replicate (p : Ev → Bool) (l : List Ev) :
    ∀ n, ((List.replicate n l).flatten.countP p) = n * l.countP p := by
  intro n
  induction n with
  | zero => simp
  | succ k ih =>
    simp [List.replicate_succ, List.countP_append, ih, Nat.succ_mul]
    omega

/-! ### Shape of the three polling loops -/

theorem dbPollLoop_events (pgReady : Nat → Bool) :
    ∀ fuel i ev, ev ∈ dbPollLoop pgReady fuel i →
      ev = Ev.cmd pgIsReadyCmd ∨ ev = Ev.sleep pollInterval := by
  intro fuel
  induction fuel with
  | zero => intro i ev h; simp [dbPollLoop] at h
  | succ k ih =>
    intro i ev h
    simp only [dbPollLoop, List.mem_cons] at h
    rcases h with h | h
    · exact Or.inl h
    · by_cases hp : pgReady i
      · simp [hp] at h
      · simp only [hp, if_neg, Bool.false_eq_true, if_false, List.mem_cons] at h
        rcases h with h | h
        · exact Or.inr h
        · exact ih (i + 1) ev h

theorem importPollLoop_events (logs : Nat → String × String) (cid : String) :
    ∀ fuel i ev, ev ∈ (importPollLoop logs cid fuel i).1 →
      ev = Ev.cmd (dockerLogsCmd cid) ∨ ev = Ev.sleep pollInterval := by
  intro fuel
  induction fuel with
  | zero => intro i ev h; simp [importPollLoop] at h
  | succ k ih =>
    intro i ev h
    by_cases hp : importCheck (logs i)
    · simp [importPollLoop, hp] at h
      exact Or.inl h
    · simp only [importPollLoop, hp, Bool.false_eq_true, if_false, List.mem_cons] at h
      rcases h with h | h | h
      · exact Or.inl h
      · exact Or.inr h
      · exact ih (i + 1) ev h

theorem dhis2PollLoop_events (httpOk : Nat → Bool) :
    ∀ fuel i ev, ev ∈ (dhis2PollLoop httpOk fuel i).1 →
      ev = Ev.httpGet dhis2InfoUrl ∨ ev = Ev.sleep pollInterval := by
  intro fuel
  induction fuel with
  | zero => intro i ev h; simp [dhis2PollLoop] at h
  | succ k ih =>
    intro i ev h
    by_cases hp : httpOk i
    · simp [dhis2PollLoop, hp] at h
      exact Or.inl h
    · simp only [dhis2PollLoop, hp, Bool.false_eq_true, if_false, List.mem_cons] at h
      rcases h with h | h | h
      · exact Or.inl h
      · exact Or.inr h
      · exact ih (i + 1) ev h

/-! ### Bounded-retry lemmas: a check failing `K` times then succeeding -/

theorem dbPollLoop_succ_eq (pgReady : Nat → Bool) :
    ∀ K fuel i, K < fuel → (∀ j, j < K → pgReady (i + j) = false) →
      pgReady (i + K) = true →
      dbPollLoop pgReady fuel i =
        (List.replicate K [Ev.cmd pgIsReadyCmd, Ev.sleep pollInterval]).flatten
          ++ [Ev.cmd pgIsReadyCmd] := by
  intro K
  induction K with
  | zero =>
    intro fuel i hf _ hK
    obtain ⟨f, rfl⟩ : ∃ f, fuel = f + 1 := ⟨fuel - 1, by omega⟩
    simp at hK
    simp [dbPollLoop, hK]
  | succ k ih =>
    intro fuel i hf hjs hK
    obtain ⟨f, rfl⟩ : ∃ f, fuel = f + 1 := ⟨fuel - 1, by omega⟩
    have h0 : pgReady i = false := by simpa using hjs 0 (by omega)
    have hrec := ih f (i + 1) (by omega)
      (fun j hj => by simpa [Nat.add_assoc, Nat.add_comm 1 j] using hjs (j + 1) (by omega))
      (by simpa [Nat.add_assoc, Nat.add_comm 1 k] using hK)
    simp [dbPollLoop, h0, hrec, List.replicate_succ]

theorem importPollLoop_succ_eq (logs : Nat → String × String) (cid : String) :
    ∀ K fuel i, K < fuel → (∀ j, j < K → importCheck (logs (i + j)) = false) →
      importCheck (logs (i + K)) = true →
      importPollLoop logs cid fuel i =
        ((List.replicate K [Ev.cmd (dockerLogsCmd cid), Ev.sleep pollInterval]).flatten
          ++ [Ev.cmd (dockerLogsCmd cid)], Outcome.ok) := by
  intro K
  induction K with
  | zero =>
    intro fuel i hf _ hK
    obtain ⟨f, rfl⟩ : ∃ f, fuel = f + 1 := ⟨fuel - 1, by omega⟩
    simp at hK
    simp [importPollLoop, hK]
  | succ k ih =>
    intro fuel i hf hjs hK
    obtain ⟨f, rfl⟩ : ∃ f, fuel = f + 1 := ⟨fuel - 1, by omega⟩
    have h0 : importCheck (logs i) = false := by simpa using hjs 0 (by omega)
    have hrec := ih f (i + 1) (by omega)
      (fun j hj => by simpa [Nat.add_assoc, Nat.add_comm 1 j] using hjs (j + 1) (by omega))
      (by simpa [Nat.add_assoc, Nat.add_comm 1 k] using hK)
    simp [importPollLoop, h0, hrec, List.replicate_succ]

theorem dhis2PollLoop_succ_eq (httpOk : Nat → Bool) :
    ∀ K fuel i, K < fuel → (∀ j, j < K → httpOk (i + j) = false) →
      httpOk (i + K) = true →
      dhis2PollLoop httpOk fuel i =
        ((List.replicate K [Ev.httpGet dhis2InfoUrl, Ev.sleep pollInterval]).flatten
          ++ [Ev.httpGet dhis2InfoUrl], Outcome.ok) := by
  intro K
  induction K with
  | zero =>
    intro fuel i hf _ hK
    obtain ⟨f, rfl⟩ : ∃ f, fuel = f + 1 := ⟨fuel - 1, by omega⟩
    simp at hK
    simp [dhis2PollLoop, hK]
  | succ k ih =>
    intro fuel i hf hjs hK
    obtain ⟨f, rfl⟩ : ∃ f, fuel = f + 1 := ⟨fuel - 1, by omega⟩
    have h0 : httpOk i = false := by simpa using hjs 0 (by omega)
    have hrec := ih f (i + 1) (by omega)
      (fun j hj => by simpa [Nat.add_assoc, Nat.add_comm 1 j] using hjs (j + 1) (by omega))
      (by simpa [Nat.add_assoc, Nat.add_comm 1 k] using hK)
    simp [dhis2PollLoop, h0, hrec, List.replicate_succ]

/-! ### Exhaustion lemmas: a check that never succeeds -/

theorem dbPollLoop_timeout (pgReady : Nat → Bool) :
    ∀ fuel i, (∀ j, j < fuel → pgReady (i + j) = false) →
      dbPollLoop pgReady fuel i =
        (List.replicate fuel [Ev.cmd pgIsReadyCmd, Ev.sleep pollInterval]).flatten := by
  intro fuel
  induction fuel with
  | zero => intro i _; simp [dbPollLoop]
  | succ k ih =>
    intro i hjs
    have h0 : pgReady i = false := by simpa using hjs 0 (by omega)
    have hrec := ih (i + 1)
      (fun j hj => by simpa [Nat.add_assoc, Nat.add_comm 1 j] using hjs (j + 1) (by omega))
    simp [dbPollLoop, h0, hrec, List.replicate_succ]

theorem importPollLoop_timeout (logs : Nat → String × String) (cid : String) :
    ∀ fuel i, (∀ j, j < fuel → importCheck (logs (i + j)) = false) →
      importPollLoop logs cid fuel i =
        ((List.replicate fuel [Ev.cmd (dockerLogsCmd cid), Ev.sleep pollInterval]).flatten,
         Outcome.runtimeError "Database import did not complete in time") := by
  intro fuel
  induction fuel with
  | zero => intro i _; simp [importPollLoop]
  | succ k ih =>
    intro i hjs
    have h0 : importCheck (logs i) = false := by simpa using hjs 0 (by omega)
    have hrec := ih (i + 1)
      (fun j hj => by simpa [Nat.add_assoc, Nat.add_comm 1 j] using hjs (j + 1) (by omega))
    simp [importPollLoop, h0, hrec, List.replicate_succ]

theorem dhis2PollLoop_timeout (httpOk : Nat → Bool) :
    ∀ fuel i, (∀ j, j < fuel → httpOk (i + j) = false) →
      dhis2PollLoop httpOk fuel i =
        ((List.replicate fuel [Ev.httpGet dhis2InfoUrl, Ev.sleep pollInterval]).flatten,
         Outcome.runtimeError "DHIS2 did not start in time") := by
  intro fuel
  induction fuel with
  | zero => intro i _; simp [dhis2PollLoop]
  | succ k ih =>
    intro i hjs
    have h0 : httpOk i = false := by simpa using hjs 0 (by omega)
    have hrec := ih (i + 1)
      (fun j hj => by simpa [Nat.add_assoc, Nat.add_comm 1 j] using hjs (j + 1) (by omega))
    simp [dhis2PollLoop, h0, hrec, List.replicate_succ]

/-- The success outcome of the import-scanning loop, characterised. -/
theorem importPollLoop_ok_iff (logs : Nat → String × String) (cid : String) :
    ∀ fuel i, ((importPollLoop logs cid fuel i).2 = Outcome.ok ↔
      ∃ j, j < fuel ∧ importCheck (logs (i + j)) = true) := by
  intro fuel
  induction fuel with
  | zero => intro i; simp [importPollLoop]
  | succ k ih =>
    intro i
    by_cases hp : importCheck (logs i)
    · simp [importPollLoop, hp]
      exact ⟨0, by omega, by simpa using hp⟩
    · simp only [importPollLoop, hp, Bool.false_eq_true, if_false]
      rw [show ((Ev.cmd (dockerLogsCmd cid) :: Ev.sleep pollInterval ::
            (importPollLoop logs cid k (i + 1)).1,
            (importPollLoop logs cid k (i + 1)).2) : Run).2 =
          (importPollLoop logs cid k (i + 1)).2 from rfl]
      rw [ih (i + 1)]
      constructor
      · rintro ⟨j, hj, hc⟩
        exact ⟨j + 1, by omega, by simpa [Nat.add_assoc, Nat.add_comm 1 j] using hc⟩
      · rintro ⟨j, hj, hc⟩
        match j with
        | 0 => simp at hc; exact absurd hc (by simpa using hp)
        | j + 1 =>
          exact ⟨j, by omega, by simpa [Nat.add_assoc, Nat.add_comm 1 j] using hc⟩

/-! ### The claims -/

/-- **C1** When a cache archive exists at the CacheKey-derived path, the
orchestrator (`start_services`) never invokes the snapshot fetcher
(`download_dump`: no `mkdir`, no `wget`) and never invokes the poll for
completion of the import (`wait_for_import`: no container-id lookup, no
`docker logs` tail fetch); it performs only the `restore_from_cache`
commands and then starts the full composed service stack
(`docker compose up -d`, which the hit branch runs twice), followed by the
application-readiness poll. -/
theorem claim_C1 (env : Env) (url : String)
    (hc : env.cacheExists = true) (hr : env.restoreTarOk = true) :
    start_services env url =
      (Ev.cmd (volumeCreateCmd (postgres_volume_name (dbdump_hash url)))
        :: Ev.cmd (restoreTarCmd (pathParent (cache_fp_path (dbdump_hash url)))
             (pathName (cache_fp_path (dbdump_hash url)))
             (postgres_volume_name (dbdump_hash url)))
        :: Ev.cmd composeUpAllCmd :: Ev.cmd composeUpAllCmd
        :: (wait_for_dhis2 env.httpOk).1,
       (wait_for_dhis2 env.httpOk).2)
    ∧ (∀ ev ∈ (start_services env url).1, isDownloadEv ev = false)
    ∧ (∀ ev ∈ (start_services env url).1, isImportEv ev = false) := by
  have htr : start_services env url =
      (Ev.cmd (volumeCreateCmd (postgres_volume_name (dbdump_hash url)))
        :: Ev.cmd (restoreTarCmd (pathParent (cache_fp_path (dbdump_hash url)))
             (pathName (cache_fp_path (dbdump_hash url)))
             (postgres_volume_name (dbdump_hash url)))
        :: Ev.cmd composeUpAllCmd :: Ev.cmd composeUpAllCmd
        :: (wait_for_dhis2 env.httpOk).1,
       (wait_for_dhis2 env.httpOk).2) := by
    simp [start_services, hc, hr, restore_from_cache, seqRun, wait_for_dhis2]
  refine ⟨htr, ?_, ?_⟩
  · intro ev hev
    rw [htr] at hev
    simp only [List.mem_cons] at hev
    rcases hev with h | h | h | h | h
    · subst h; rfl
    · subst h; rfl
    · subst h; rfl
    · subst h; rfl
    · rcases dhis2PollLoop_events env.httpOk pollMaxAttempts 0 ev h with h | h <;>
        subst h <;> rfl
  · intro ev hev
    rw [htr] at hev
    simp only [List.mem_cons] at hev
    rcases hev with h | h | h | h | h
    · subst h; rfl
    · subst h; rfl
    · subst h; rfl
    · subst h; rfl
    · rcases dhis2PollLoop_events env.httpOk pollMaxAttempts 0 ev h with h | h <;>
        subst h <;> rfl

/-- Witness for C1: a concrete cache-hit environment. -/
theorem claim_C1_witness :
    start_services
        { cacheExists := true, fs := ⟨[], []⟩, wgetOk := true, restoreTarOk := true,
          pgReady := fun _ => true, psStdout := "abc", logs := fun _ => ("", ""),
          httpOk := fun _ => true } "https://example/dump.sql.gz" =
      (Ev.cmd (volumeCreateCmd
          (postgres_volume_name (dbdump_hash "https://example/dump.sql.gz")))
        :: Ev.cmd (restoreTarCmd
             (pathParent (cache_fp_path (dbdump_hash "https://example/dump.sql.gz")))
             (pathName (cache_fp_path (dbdump_hash "https://example/dump.sql.gz")))
             (postgres_volume_name (dbdump_hash "https://example/dump.sql.gz")))
        :: Ev.cmd composeUpAllCmd :: Ev.cmd composeUpAllCmd
        :: (wait_for_dhis2 (fun _ => true)).1,
       (wait_for_dhis2 (fun _ => true)).2) :=
  (claim_C1
    { cacheExists := true, fs := ⟨[], []⟩, wgetOk := true, restoreTarOk := true,
      pgReady := fun _ => true, psStdout := "abc", logs := fun _ => ("", ""),
      httpOk := fun _ => true } "https://example/dump.sql.gz" rfl rfl).1

/-- **C2** When no cache archive exists, `start_services` performs, in
exactly this order: the `download_dump` effects, the `start_db` effects
(DB-only start with its liveness poll), the `wait_for_import` effects, the
`cache_db` effects, the full-stack `docker compose up -d`, and then the
`wait_for_dhis2` effects, whose outcome is the outcome of the whole run. -/
theorem claim_C2 (env : Env) (url : String) (hc : env.cacheExists = false)
    (hdl : (download_dump env.fs env.wgetOk (dbdump_dir_path (dbdump_hash url)) url).2.2.2
      = Outcome.ok)
    (himp : (wait_for_import env.psStdout env.logs).2 = Outcome.ok) :
    start_services env url =
      ((download_dump env.fs env.wgetOk (dbdump_dir_path (dbdump_hash url)) url).2.2.1
        ++ ((start_db env.pgReady (postgres_volume_name (dbdump_hash url))).1
        ++ ((wait_for_import env.psStdout env.logs).1
        ++ ((cache_db (cache_fp_path (dbdump_hash url))
              (postgres_volume_name (dbdump_hash url))).1
        ++ (Ev.cmd composeUpAllCmd :: (wait_for_dhis2 env.httpOk).1)))),
       (wait_for_dhis2 env.httpOk).2) := by
  have e1 : seqRun (wait_for_import env.psStdout env.logs)
      (cache_db (cache_fp_path (dbdump_hash url)) (postgres_volume_name (dbdump_hash url))) =
      ((wait_for_import env.psStdout env.logs).1
        ++ (cache_db (cache_fp_path (dbdump_hash url))
              (postgres_volume_name (dbdump_hash url))).1, Outcome.ok) := by
    rw [seqRun_ok _ _ himp]
    rfl
  have e2 : seqRun (start_db env.pgReady (postgres_volume_name (dbdump_hash url)))
      (seqRun (wait_for_import env.psStdout env.logs)
        (cache_db (cache_fp_path (dbdump_hash url))
          (postgres_volume_name (dbdump_hash url)))) =
      ((start_db env.pgReady (postgres_volume_name (dbdump_hash url))).1
        ++ ((wait_for_import env.psStdout env.logs).1
          ++ (cache_db (cache_fp_path (dbdump_hash url))
                (postgres_volume_name (dbdump_hash url))).1), Outcome.ok) := by
    rw [seqRun_ok _ _ rfl, e1]
  have e3 : seqRun
      (download_dump env.fs env.wgetOk (dbdump_dir_path (dbdump_hash url)) url).2.2
      (seqRun (start_db env.pgReady (postgres_volume_name (dbdump_hash url)))
        (seqRun (wait_for_import env.psStdout env.logs)
          (cache_db (cache_fp_path (dbdump_hash url))
            (postgres_volume_name (dbdump_hash url))))) =
      ((download_dump env.fs env.wgetOk (dbdump_dir_path (dbdump_hash url)) url).2.2.1
        ++ ((start_db env.pgReady (postgres_volume_name (dbdump_hash url))).1
          ++ ((wait_for_import env.psStdout env.logs).1
            ++ (cache_db (cache_fp_path (dbdump_hash url))
                  (postgres_volume_name (dbdump_hash url))).1)), Outcome.ok) := by
    rw [seqRun_ok _ _ hdl, e2]
  simp only [start_services, hc, Bool.false_eq_true, if_false]
  rw [e3, seqRun_ok _ _ rfl, seqRun_ok _ _ rfl]
  simp

/-- Witness for C2: a concrete cache-miss environment whose import marker
appears on the second log poll. -/
theorem claim_C2_witness :
    start_services
        { cacheExists := false, fs := ⟨[], []⟩, wgetOk := true, restoreTarOk := true,
          pgReady := fun _ => true, psStdout := "abc",
          logs := fun i => ("", if 1 ≤ i then importMarker else ""),
          httpOk := fun _ => true } "https://example/dump.sql.gz" =
      ((download_dump ⟨[], []⟩ true (dbdump_dir_path (dbdump_hash "https://example/dump.sql.gz"))
          "https://example/dump.sql.gz").2.2.1
        ++ ((start_db (fun _ => true)
              (postgres_volume_name (dbdump_hash "https://example/dump.sql.gz"))).1
        ++ ((wait_for_import "abc" (fun i => ("", if 1 ≤ i then importMarker else ""))).1
        ++ ((cache_db (cache_fp_path (dbdump_hash "https://example/dump.sql.gz"))
              (postgres_volume_name (dbdump_hash "https://example/dump.sql.gz"))).1
        ++ (Ev.cmd composeUpAllCmd
              :: (wait_for_dhis2 (fun _ => true)).1)))),
       (wait_for_dhis2 (fun _ => true)).2) :=
  claim_C2
    { cacheExists := false, fs := ⟨[], []⟩, wgetOk := true, restoreTarOk := true,
      pgReady := fun _ => true, psStdout := "abc",
      logs := fun i => ("", if 1 ≤ i then importMarker else ""),
      httpOk := fun _ => true } "https://example/dump.sql.gz" rfl
    (by simp [download_dump, fsMkdir])
    (by
      have hs : pyStrip "abc" = "abc" := rfl
      simp only [wait_for_import, hs]
      rw [if_neg (by decide)]
      exact (importPollLoop_ok_iff _ _ pollMaxAttempts 0).2 ⟨1, by decide, by decide⟩)

/-- **C3 (counterexample)** The DB-liveness poll of `start_db` does NOT
raise a timeout error when `pg_isready` fails on every one of the 360
attempts: `start_db` performs all 360 checks and then returns normally. -/
theorem claim_C3_counterexample :
    (start_db (fun _ => false) "dhis2_4451c754_postgres-data").2 = Outcome.ok
    ∧ (start_db (fun _ => false) "dhis2_4451c754_postgres-data").1.countP
        (fun e => e == Ev.cmd pgIsReadyCmd) = pollMaxAttempts := by
  constructor
  · rfl
  · have h := dbPollLoop_timeout (fun _ => false) pollMaxAttempts 0 (fun j _ => rfl)
    simp [start_db, h, List.countP_append, countP_flatten_replicate, List.countP_cons]
    decide

/-- **C3 (amended)** The import-completion poll and the application-readiness
poll fail, after their check fails on every one of the 360 attempts, with a
`RuntimeError` naming what was being waited for; the DB-liveness poll in
`start_db` instead returns normally after exhausting its attempts, raising
nothing. -/
theorem claim_C3 (pgReady : Nat → Bool) (volume psStdout : String)
    (logs : Nat → String × String) (httpOk : Nat → Bool)
    (hps : ¬ pyStrip psStdout = "")
    (hlog : ∀ j, j < pollMaxAttempts → importCheck (logs j) = false)
    (hhttp : ∀ j, j < pollMaxAttempts → httpOk j = false) :
    (wait_for_import psStdout logs).2 =
        Outcome.runtimeError "Database import did not complete in time"
    ∧ (wait_for_import psStdout logs).1.countP isLogsEv = pollMaxAttempts
    ∧ (wait_for_dhis2 httpOk).2 = Outcome.runtimeError "DHIS2 did not start in time"
    ∧ (wait_for_dhis2 httpOk).1.countP (fun e => e == Ev.httpGet dhis2InfoUrl)
        = pollMaxAttempts
    ∧ (start_db pgReady volume).2 = Outcome.ok := by
  have himp := importPollLoop_timeout logs (pyStrip psStdout) pollMaxAttempts 0
    (fun j hj => by simpa using hlog j hj)
  have hdh := dhis2PollLoop_timeout httpOk pollMaxAttempts 0
    (fun j hj => by simpa using hhttp j hj)
  refine ⟨?_, ?_, ?_, ?_, rfl⟩
  · simp [wait_for_import, hps, himp]
  · simp [wait_for_import, hps, himp, List.countP_cons,
      countP_flatten_replicate, isLogsEv, dockerLogsCmd, composePsQDbCmd]
  · simp [wait_for_dhis2, hdh]
  · simp [wait_for_dhis2, hdh, countP_flatten_replicate, List.countP_cons]

/-- Witness for C3 (amended): concrete never-succeeding checks. -/
theorem claim_C3_witness :
    (wait_for_import "abc" (fun _ => ("", ""))).2 =
      Outcome.runtimeError "Database import did not complete in time" :=
  (claim_C3 (fun _ => false) "v" "abc" (fun _ => ("", "")) (fun _ => false)
    (by decide) (fun j _ => rfl) (fun j _ => rfl)).1

/-- **C4** Each of the three polling loops, on a check that fails the first
`K` attempts (`K < 360`) and then succeeds, performs exactly `K + 1` check
invocations with one 3-second sleep between consecutive invocations, and
returns success; and every instantiation uses the shared bound of 360
attempts at 3-second intervals. -/
theorem claim_C4 (K : Nat) (hK : K < pollMaxAttempts)
    (pgReady : Nat → Bool) (logs : Nat → String × String) (httpOk : Nat → Bool)
    (cid : String)
    (hpg : ∀ j, j < K → pgReady j = false) (hpgK : pgReady K = true)
    (hlog : ∀ j, j < K → importCheck (logs j) = false)
    (hlogK : importCheck (logs K) = true)
    (hhttp : ∀ j, j < K → httpOk j = false) (hhttpK : httpOk K = true) :
    dbPollLoop pgReady pollMaxAttempts 0 =
        (List.replicate K [Ev.cmd pgIsReadyCmd, Ev.sleep pollInterval]).flatten
          ++ [Ev.cmd pgIsReadyCmd]
    ∧ (dbPollLoop pgReady pollMaxAttempts 0).countP
        (fun e => e == Ev.cmd pgIsReadyCmd) = K + 1
    ∧ importPollLoop logs cid pollMaxAttempts 0 =
        ((List.replicate K [Ev.cmd (dockerLogsCmd cid), Ev.sleep pollInterval]).flatten
          ++ [Ev.cmd (dockerLogsCmd cid)], Outcome.ok)
    ∧ (importPollLoop logs cid pollMaxAttempts 0).1.countP isLogsEv = K + 1
    ∧ wait_for_dhis2 httpOk =
        ((List.replicate K [Ev.httpGet dhis2InfoUrl, Ev.sleep pollInterval]).flatten
          ++ [Ev.httpGet dhis2InfoUrl], Outcome.ok)
    ∧ (wait_for_dhis2 httpOk).1.countP (fun e => e == Ev.httpGet dhis2InfoUrl) = K + 1
    ∧ pollMaxAttempts = 360 ∧ pollInterval = 3 := by
  have hdb := dbPollLoop_succ_eq pgReady K pollMaxAttempts 0 hK
    (fun j hj => by simpa using hpg j hj) (by simpa using hpgK)
  have him := importPollLoop_succ_eq logs cid K pollMaxAttempts 0 hK
    (fun j hj => by simpa using hlog j hj) (by simpa using hlogK)
  have hdh := dhis2PollLoop_succ_eq httpOk K pollMaxAttempts 0 hK
    (fun j hj => by simpa using hhttp j hj) (by simpa using hhttpK)
  refine ⟨hdb, ?_, him, ?_, hdh, ?_, rfl, rfl⟩
  · simp [hdb, List.countP_append, countP_flatten_replicate, List.countP_cons]
  · simp [him, List.countP_append, countP_flatten_replicate, List.countP_cons,
      isLogsEv, dockerLogsCmd]
  · simp [wait_for_dhis2, hdh, List.countP_append, countP_flatten_replicate,
      List.countP_cons]

/-! ### Hex-digest structure lemmas (for the cache-key claim) -/

theorem toLE_length : ∀ n x, (toLE n x).length = n := by
  intro n
  induction n with
  | zero => intro x; rfl
  | succ k ih => intro x; simp [toLE, ih]

theorem md5Digest_length (msg : List Nat) : (md5Digest msg).length = 16 := by
  simp [md5Digest, toLE_length]

theorem flatten_map_byteHex_length :
    ∀ l : List Nat, ((l.map byteHex).flatten).length = 2 * l.length := by
  intro l
  induction l with
  | nil => rfl
  | cons b t ih => simp [byteHex, ih]; omega

theorem md5HexChars_length (s : String) : (md5HexChars s).length = 32 := by
  rw [md5HexChars, flatten_map_byteHex_length, md5Digest_length]

theorem mem_flatten_byteHex :
    ∀ (l : List Nat) (c : Char), c ∈ (l.map byteHex).flatten →
      ∃ n, n < 16 ∧ c = hexChar n := by
  intro l
  induction l with
  | nil => intro c h; simp at h
  | cons b t ih =>
    intro c h
    rw [List.map_cons, List.flatten_cons, List.mem_append] at h
    rcases h with h | h
    · simp only [byteHex, List.mem_cons, List.not_mem_nil, or_false] at h
      rcases h with h | h
      · exact ⟨b / 16 % 16, Nat.mod_lt _ (by omega), h⟩
      · exact ⟨b % 16, Nat.mod_lt _ (by omega), h⟩
    · exact ih c h

theorem hexChar_lowerHex : ∀ n, n < 16 → isLowerHexChar (hexChar n) = true := by
  decide

theorem mem_fsMkdir_dirs (fs : FS) (dir : String) : dir ∈ (fsMkdir fs dir).dirs := by
  show dir ∈ (if fs.dirs.contains dir then fs.dirs else dir :: fs.dirs)
  by_cases h : fs.dirs.contains dir = true
  · rw [if_pos h]
    simpa using h
  · rw [if_neg h]
    exact List.mem_cons_self _ _

/-- Witness for C4: checks failing exactly once then succeeding. -/
theorem claim_C4_witness :
    wait_for_dhis2 (fun j => decide (1 ≤ j)) =
      ((List.replicate 1 [Ev.httpGet dhis2InfoUrl, Ev.sleep pollInterval]).flatten
        ++ [Ev.httpGet dhis2InfoUrl], Outcome.ok) :=
  (claim_C4 1 (by decide) (fun j => decide (1 ≤ j))
    (fun i => ("", if 1 ≤ i then importMarker else "")) (fun j => decide (1 ≤ j))
    "abc" (by decide) (by decide) (by decide) (by decide)
    (by decide) (by decide)).2.2.2.2.1

/-- **C5** Cache-key derivation is a pure deterministic function of the
dump-URL string: equal locators give equal keys; the key is an 8-character
lowercase-hex string; the cache path is `./cache/postgres-<key>.tar.gz` and
the volume name is `dhis2_<key>_postgres-data`. -/
theorem claim_C5 (s1 s2 s : String) (h : s1 = s2) :
    dbdump_hash s1 = dbdump_hash s2
    ∧ (dbdump_hash s).length = 8
    ∧ (∀ c ∈ (dbdump_hash s).data, isLowerHexChar c = true)
    ∧ cache_fp_path (dbdump_hash s) = "./cache/postgres-" ++ dbdump_hash s ++ ".tar.gz"
    ∧ postgres_volume_name (dbdump_hash s)
        = "dhis2_" ++ dbdump_hash s ++ "_postgres-data" := by
  refine ⟨by rw [h], ?_, ?_, rfl, rfl⟩
  · show ((md5HexChars s).take 8).length = 8
    rw [List.length_take, md5HexChars_length]
    decide
  · intro c hc
    have hc' : c ∈ (md5HexChars s).take 8 := hc
    obtain ⟨n, hn, rfl⟩ :=
      mem_flatten_byteHex (md5Digest (strBytes s)) c (List.take_subset _ _ hc')
    exact hexChar_lowerHex n hn

/-- Witness for C5: the spec's example locator. -/
theorem claim_C5_witness :
    (dbdump_hash "https://example/dump.sql.gz").length = 8 :=
  (claim_C5 "https://example/dump.sql.gz" "https://example/dump.sql.gz"
    "https://example/dump.sql.gz" rfl).2.1

set_option maxRecDepth 16384 in
set_option maxHeartbeats 1000000 in
/-- The derived key of the repository's default dump URL, fully evaluated
through the MD5 embedding (cross-checked against the Python
`hashlib.md5(...).hexdigest()[:8]` value). -/
theorem dbdump_hash_default_url :
    dbdump_hash "https://storage.googleapis.com/hexa-public-assets/openhexa-toolbox/dhis2-databases/dhis2-db-sierra-leone-analytics_2.41.sql.gz"
      = "4451c754" := by
  decide

/-- **C6** When the cache archive exists but the extraction container
fails, the `CalledProcessError` from `restore_from_cache` propagates out of
`start_services` unhandled: the run's outcome is that process error, the
trace stops at the failed extraction, and nothing of the fresh-import path
(no download, no import poll) and no full-stack start ever runs. -/
theorem claim_C6 (env : Env) (url : String)
    (hc : env.cacheExists = true) (hr : env.restoreTarOk = false) :
    start_services env url =
      ([Ev.cmd (volumeCreateCmd (postgres_volume_name (dbdump_hash url))),
        Ev.cmd (restoreTarCmd (pathParent (cache_fp_path (dbdump_hash url)))
          (pathName (cache_fp_path (dbdump_hash url)))
          (postgres_volume_name (dbdump_hash url)))],
       Outcome.processError (restoreTarCmd (pathParent (cache_fp_path (dbdump_hash url)))
         (pathName (cache_fp_path (dbdump_hash url)))
         (postgres_volume_name (dbdump_hash url))))
    ∧ (start_services env url).2 ≠ Outcome.ok
    ∧ (∀ ev ∈ (start_services env url).1, isDownloadEv ev = false ∧ isImportEv ev = false)
    ∧ Ev.cmd composeUpAllCmd ∉ (start_services env url).1 := by
  have htr : start_services env url =
      ([Ev.cmd (volumeCreateCmd (postgres_volume_name (dbdump_hash url))),
        Ev.cmd (restoreTarCmd (pathParent (cache_fp_path (dbdump_hash url)))
          (pathName (cache_fp_path (dbdump_hash url)))
          (postgres_volume_name (dbdump_hash url)))],
       Outcome.processError (restoreTarCmd (pathParent (cache_fp_path (dbdump_hash url)))
         (pathName (cache_fp_path (dbdump_hash url)))
         (postgres_volume_name (dbdump_hash url)))) := by
    simp [start_services, hc, hr, restore_from_cache, seqRun]
  refine ⟨htr, by rw [htr]; simp, ?_, ?_⟩
  · intro ev hev
    rw [htr] at hev
    simp only [List.mem_cons, List.not_mem_nil, or_false] at hev
    rcases hev with h | h <;> subst h <;> exact ⟨rfl, rfl⟩
  · rw [htr]
    simp [volumeCreateCmd, restoreTarCmd, composeUpAllCmd]

/-- Witness for C6: a concrete environment with a failing extraction. -/
theorem claim_C6_witness :
    start_services
        { cacheExists := true, fs := ⟨[], []⟩, wgetOk := true, restoreTarOk := false,
          pgReady := fun _ => true, psStdout := "abc", logs := fun _ => ("", ""),
          httpOk := fun _ => true } "https://example/dump.sql.gz" =
      ([Ev.cmd (volumeCreateCmd
          (postgres_volume_name (dbdump_hash "https://example/dump.sql.gz"))),
        Ev.cmd (restoreTarCmd
          (pathParent (cache_fp_path (dbdump_hash "https://example/dump.sql.gz")))
          (pathName (cache_fp_path (dbdump_hash "https://example/dump.sql.gz")))
          (postgres_volume_name (dbdump_hash "https://example/dump.sql.gz")))],
       Outcome.processError (restoreTarCmd
         (pathParent (cache_fp_path (dbdump_hash "https://example/dump.sql.gz")))
         (pathName (cache_fp_path (dbdump_hash "https://example/dump.sql.gz")))
         (postgres_volume_name (dbdump_hash "https://example/dump.sql.gz")))) :=
  (claim_C6
    { cacheExists := true, fs := ⟨[], []⟩, wgetOk := true, restoreTarOk := false,
      pgReady := fun _ => true, psStdout := "abc", logs := fun _ => ("", ""),
      httpOk := fun _ => true } "https://example/dump.sql.gz" rfl rfl).1

/-- **C7** The snapshot fetch is idempotent: calling `download_dump` twice
with the same directory and URL (downloads succeeding) returns the same
path both times, performs the `wget` at most once over the two calls and
never in the second call, always leaves the dump directory existing, and
returns immediately (only the `mkdir`, no `wget`) whenever the target file
already exists. -/
theorem claim_C7 (fs : FS) (dir url : String) :
    (download_dump (download_dump fs true dir url).1 true dir url).2.1
      = (download_dump fs true dir url).2.1
    ∧ ((download_dump fs true dir url).2.2.1
        ++ (download_dump (download_dump fs true dir url).1 true dir url).2.2.1).countP
          isWgetEv ≤ 1
    ∧ (download_dump (download_dump fs true dir url).1 true dir url).2.2.1.countP
        isWgetEv = 0
    ∧ dir ∈ (download_dump fs true dir url).1.dirs
    ∧ dir ∈ (download_dump (download_dump fs true dir url).1 true dir url).1.dirs
    ∧ (fs.files.contains (dir ++ "/dump.sql.gz") = true →
        (download_dump fs true dir url).2.2 = ([Ev.mkdirParents dir], Outcome.ok)) := by
  by_cases hf : fs.files.contains (dir ++ "/dump.sql.gz") = true
  · have hf2 : (fsMkdir fs dir).files.contains (dir ++ "/dump.sql.gz") = true := hf
    have h1 : download_dump fs true dir url =
        (fsMkdir fs dir, dir ++ "/dump.sql.gz", ([Ev.mkdirParents dir], Outcome.ok)) := by
      simp only [download_dump]
      rw [if_pos hf2]
    have hf3 : (fsMkdir (fsMkdir fs dir) dir).files.contains
        (dir ++ "/dump.sql.gz") = true := hf
    have h2 : download_dump (fsMkdir fs dir) true dir url =
        (fsMkdir (fsMkdir fs dir) dir, dir ++ "/dump.sql.gz",
         ([Ev.mkdirParents dir], Outcome.ok)) := by
      simp only [download_dump]
      rw [if_pos hf3]
    refine ⟨?_, ?_, ?_, ?_, ?_, fun _ => ?_⟩ <;>
      simp [h1, h2, isWgetEv, mem_fsMkdir_dirs, List.countP_cons]
  · have hf2 : ¬ (fsMkdir fs dir).files.contains (dir ++ "/dump.sql.gz") = true := hf
    have h1 : download_dump fs true dir url =
        ((⟨(dir ++ "/dump.sql.gz") :: (fsMkdir fs dir).files, (fsMkdir fs dir).dirs⟩ : FS),
         dir ++ "/dump.sql.gz",
         ([Ev.mkdirParents dir,
           Ev.cmd (wgetCmd (dir ++ "/dump.sql.gz") url)], Outcome.ok)) := by
      simp only [download_dump]
      rw [if_neg hf2]
      simp
    have hf3 : (fsMkdir
        ⟨(dir ++ "/dump.sql.gz") :: (fsMkdir fs dir).files, (fsMkdir fs dir).dirs⟩
        dir).files.contains (dir ++ "/dump.sql.gz") = true := by
      simp [fsMkdir]
    have h2 : download_dump
        ⟨(dir ++ "/dump.sql.gz") :: (fsMkdir fs dir).files, (fsMkdir fs dir).dirs⟩
        true dir url =
        (fsMkdir ⟨(dir ++ "/dump.sql.gz") :: (fsMkdir fs dir).files, (fsMkdir fs dir).dirs⟩
           dir,
         dir ++ "/dump.sql.gz", ([Ev.mkdirParents dir], Outcome.ok)) := by
      simp only [download_dump]
      rw [if_pos hf3]
    refine ⟨?_, ?_, ?_, ?_, ?_, fun hcontra => absurd hcontra hf⟩ <;>
      simp [h1, h2, isWgetEv, wgetCmd, mem_fsMkdir_dirs, List.countP_cons]

/-- Witness for C7: a filesystem already holding the dump file. -/
theorem claim_C7_witness :
    (({ files := ["./d/dump.sql.gz"], dirs := [] } : FS).files.contains
        ("./d" ++ "/dump.sql.gz") = true)
    ∧ (download_dump ⟨["./d/dump.sql.gz"], []⟩ true "./d" "https://example/dump.sql.gz").2.2
        = ([Ev.mkdirParents "./d"], Outcome.ok) :=
  ⟨by decide,
   (claim_C7 ⟨["./d/dump.sql.gz"], []⟩ "./d" "https://example/dump.sql.gz").2.2.2.2.2
     (by decide)⟩

/-- **C8 (counterexample)** `cache_db` performs no local-filesystem
directory creation at all: on the concrete cache path its effect trace is
exactly the `docker compose stop db` and the archiving `docker run`, with
zero `mkdir` events — so it does not create the cache directory when that
directory is absent. -/
theorem claim_C8_counterexample :
    (cache_db "./cache/postgres-4451c754.tar.gz" "dhis2_4451c754_postgres-data").1 =
      [Ev.cmd composeStopDbCmd,
       Ev.cmd (cacheTarCmd "./cache" "postgres-4451c754.tar.gz"
         "dhis2_4451c754_postgres-data")]
    ∧ (cache_db "./cache/postgres-4451c754.tar.gz"
        "dhis2_4451c754_postgres-data").1.countP isMkdirEv = 0 := by
  constructor <;> decide

/-- **C8 (amended)** `cache_db` itself never creates the cache directory:
its trace is exactly the graceful `db` stop followed by the archiving
container run with the cache directory passed as a bind-mount source, and
it contains no directory-creation effect (any materialisation of an absent
host directory is left to the container runtime). -/
theorem claim_C8 (cache_file volume : String) :
    cache_db cache_file volume =
      ([Ev.cmd composeStopDbCmd,
        Ev.cmd (cacheTarCmd (pathParent cache_file) (pathName cache_file) volume)],
       Outcome.ok)
    ∧ (cache_db cache_file volume).1.countP isMkdirEv = 0 := by
  exact ⟨rfl, rfl⟩

/-- Witness for C8 (amended): evaluated at the default-URL cache path. -/
theorem claim_C8_witness :
    (cache_db "./cache/postgres-4451c754.tar.gz" "v").1.countP isMkdirEv = 0 :=
  (claim_C8 "./cache/postgres-4451c754.tar.gz" "v").2

/-- **C9** (implicit) The import-completion poll succeeds exactly when the
marker string occurs in the stderr stream of some fetched 100-line log
tail within the attempt bound — the per-attempt check reads only the
stderr field — and a marker appearing only on stdout is never detected:
with the marker on every stdout and no marker on stderr, `wait_for_import`
times out. -/
theorem claim_C9 (psStdout : String) (logs : Nat → String × String)
    (hps : ¬ pyStrip psStdout = "") :
    ((wait_for_import psStdout logs).2 = Outcome.ok ↔
      ∃ j, j < pollMaxAttempts ∧ occursIn importMarker (logs j).2 = true)
    ∧ (∀ out : String × String, importCheck out = occursIn importMarker out.2)
    ∧ (wait_for_import psStdout (fun _ => (importMarker, ""))).2 =
        Outcome.runtimeError "Database import did not complete in time" := by
  refine ⟨?_, fun _ => rfl, ?_⟩
  · show ((if pyStrip psStdout = "" then _ else _ : Run)).2 = _ ↔ _
    rw [if_neg hps]
    show (importPollLoop logs (pyStrip psStdout) pollMaxAttempts 0).2 = Outcome.ok ↔ _
    rw [importPollLoop_ok_iff]
    simp [importCheck]
  · have h := importPollLoop_timeout (fun _ => (importMarker, "")) (pyStrip psStdout)
      pollMaxAttempts 0 (fun j _ => rfl)
    simp [wait_for_import, hps, h]

/-- Witness for C9: a marker-on-stderr log stream. -/
theorem claim_C9_witness :
    (wait_for_import "abc" (fun _ => ("", importMarker))).2 = Outcome.ok ↔
      ∃ j, j < pollMaxAttempts ∧ occursIn importMarker importMarker = true :=
  (claim_C9 "abc" (fun _ => ("", importMarker)) (by decide)).1

/-- **C10** (implicit) When the container-id lookup's stdout strips to the
empty string (empty or whitespace-only), `wait_for_import` raises
`RuntimeError("DB container not found")` immediately: its trace is just the
lookup command — no log fetch and no sleep ever happens. -/
theorem claim_C10 (psStdout : String) (logs : Nat → String × String)
    (h : pyStrip psStdout = "") :
    wait_for_import psStdout logs =
      ([Ev.cmd composePsQDbCmd], Outcome.runtimeError "DB container not found")
    ∧ (wait_for_import psStdout logs).1.countP isLogsEv = 0
    ∧ (wait_for_import psStdout logs).1.countP isSleepEv = 0 := by
  have htr : wait_for_import psStdout logs =
      ([Ev.cmd composePsQDbCmd], Outcome.runtimeError "DB container not found") := by
    simp [wait_for_import, h]
  exact ⟨htr, by rw [htr]; rfl, by rw [htr]; rfl⟩

/-- Witness for C10: a whitespace-only container-id lookup result. -/
theorem claim_C10_witness :
    wait_for_import " \n " (fun _ => ("junk", "junk")) =
      ([Ev.cmd composePsQDbCmd], Outcome.runtimeError "DB container not found") :=
  (claim_C10 " \n " (fun _ => ("junk", "junk")) (by decide)).1

end Dhis2
